import Mathlib

namespace WikiBot

/-- Python exceptions that `src/a10.py` can raise or catch: `KeyboardInterrupt`
(raised by `bye_action` and caught by `query_loop`), `EOFError` (caught by
`query_loop`), `AttributeError` (raised by `get_match`, line 75), `LookupError`
(raised by `get_first_infobox_text`, line 37) and `IndexError` (raised by
Python when `matches[0]` is taken on an empty list). -/
inductive Exn where
  | keyboardInterrupt
  | eofError
  | attributeError (msg : String)
  | lookupError (msg : String)
  | indexError
deriving DecidableEq, Repr

/-- Modelled from the spec: `src/a10.py` line 7 imports `match` from a module
`match` whose file is not part of the repository, so the matcher is built from
the spec's algorithm (section 4.1).  A pattern is a list of words in which the
marker `"%"` is a wildcard standing for a contiguous run of one or more source
words (section 6 and the patterns of `pa_list`, lines 262-270); every other
token is a literal that must equal the corresponding source word.  On success
the flattened list of all wildcard-consumed words is returned, in pattern
order; on failure the result is `none` (Python `None`, tested by
`search_pa_list` line 287).  Wildcard spans are tried shortest first: a span of
length 1 is attempted, and the span grows only when the remainder of the
pattern cannot complete the match. -/
def matchPat : List String → List String → Option (List String)
  | [], [] => some []
  | [], _ :: _ => none
  | _ :: _, [] => none
  | p :: ps, s :: ss =>
    if p = "%" then
      match matchPat ps ss with
      | some caps => some (s :: caps)
      | none =>
        match matchPat (p :: ps) ss with
        | some caps => some (s :: caps)
        | none => none
    else if p = s then
      matchPat ps ss
    else
      none

/-- Number of wildcard markers in a pattern. -/
def wildcardCount : List String → Nat
  | [] => 0
  | p :: ps => (if p = "%" then 1 else 0) + wildcardCount ps

/-- Modelled from the spec: the external collaborators the spec's section 1
excludes from the core (page fetch, infobox extraction, text cleaning and the
regular-expression extractors of the `re` module).  `infobox` stands for the
composite `clean_text (get_first_infobox_text (get_page_html name))` used by
every `get_*` function of `src/a10.py`; its failures model `wikipedia` fetch
errors and the `LookupError` of `get_first_infobox_text`.  Each `find*` field
stands for one `p.search(text)` regex outcome: `some s` when the regex finds
the fact `s` in the infobox text, `none` when it does not. -/
structure WikiEnv where
  infobox : String → Except Exn String
  findBirth : String → Option String
  findRadius : String → Option String
  findMotto : String → Option String
  findGenre : String → Option String
  findMovement : String → Option String
  findWork : String → Option String

/-- Embeds `get_match` (src/a10.py lines 56-76).  The regex engine itself is
external, so `found` stands for the result of `p.search(text)`: when the
search found nothing the function raises `AttributeError(error_text)` (line
75), otherwise it returns the match. -/
def get_match (found : Option String) (error_text : String) : Except Exn String :=
  match found with
  | some m => Except.ok m
  | none => Except.error (Exn.attributeError error_text)

/-- Error text of `get_polar_radius` (line 90). -/
def err_radius : String := "Page infobox has no polar radius information"

/-- Error text of `get_birth_date` (lines 107-109). -/
def err_birth : String := "Page infobox has no birth information (at least none in xxxx-xx-xx format)"

/-- Error text of `get_university_motto` (lines 125-127). -/
def err_motto : String := "Page infobox has no motto information"

/-- Error text of `get_artist_genre` (lines 142-144). -/
def err_genre : String := "Page infobox has no genre information"

/-- Error text of `get_painter_movement` (line 159). -/
def err_movement : String := "Page infobox has no artistic movement information"

/-- Error text of `get_notable_work` (line 174). -/
def err_work : String := "Page infobox has no notable work information"

/-- Embeds `get_polar_radius` (lines 79-93): fetch and clean the infobox text,
then search it; a failed search raises `AttributeError` via `get_match`. -/
def get_polar_radius (env : WikiEnv) (planet_name : String) : Except Exn String := do
  let infobox_text ← env.infobox planet_name
  get_match (env.findRadius infobox_text) err_radius

/-- Embeds `get_birth_date` (lines 96-112). -/
def get_birth_date (env : WikiEnv) (name : String) : Except Exn String := do
  let infobox_text ← env.infobox name
  get_match (env.findBirth infobox_text) err_birth

/-- Embeds `get_university_motto` (lines 114-129). -/
def get_university_motto (env : WikiEnv) (name : String) : Except Exn String := do
  let infobox_text ← env.infobox name
  get_match (env.findMotto infobox_text) err_motto

/-- Embeds `get_artist_genre` (lines 131-146). -/
def get_artist_genre (env : WikiEnv) (name : String) : Except Exn String := do
  let infobox_text ← env.infobox name
  get_match (env.findGenre infobox_text) err_genre

/-- Embeds `get_painter_movement` (lines 148-161).  Unlike the other
extractors it calls `re.search` directly and, when the regex finds nothing,
returns the error text as an ordinary string instead of raising (line 161). -/
def get_painter_movement (env : WikiEnv) (painter_name : String) : Except Exn String := do
  let infobox_text ← env.infobox painter_name
  match env.findMovement infobox_text with
  | some m => pure m
  | none => pure err_movement

/-- Embeds `get_notable_work` (lines 163-176). -/
def get_notable_work (env : WikiEnv) (painter_name : String) : Except Exn String := do
  let infobox_text ← env.infobox painter_name
  get_match (env.findWork infobox_text) err_work

/-- Embeds the action `notable_work` (lines 181-190): it joins ALL captured
words with spaces (`" ".join(matches)`) before the lookup and wraps the result
in a one-element list. -/
def notable_work (env : WikiEnv) (ms : List String) : Except Exn (List String) :=
  (get_notable_work env (String.intercalate (" ") ms)).map (fun s => [s])

/-- Embeds the action `university_motto` (lines 192-201): it passes only the
FIRST captured word, `matches[0]`, to the lookup (Python raises `IndexError`
when the list is empty). -/
def university_motto (env : WikiEnv) (ms : List String) : Except Exn (List String) :=
  match ms with
  | [] => Except.error Exn.indexError
  | m :: _ => (get_university_motto env m).map (fun s => [s])

/-- Embeds the action `painter_movement` (lines 203-212): passes `matches[0]`. -/
def painter_movement (env : WikiEnv) (ms : List String) : Except Exn (List String) :=
  match ms with
  | [] => Except.error Exn.indexError
  | m :: _ => (get_painter_movement env m).map (fun s => [s])

/-- Embeds the action `artist_genre` (lines 214-223): passes `matches[0]`. -/
def artist_genre (env : WikiEnv) (ms : List String) : Except Exn (List String) :=
  match ms with
  | [] => Except.error Exn.indexError
  | m :: _ => (get_artist_genre env m).map (fun s => [s])

/-- Embeds the action `birth_date` (lines 226-235): joins ALL captured words
with spaces before the lookup. -/
def birth_date (env : WikiEnv) (ms : List String) : Except Exn (List String) :=
  (get_birth_date env (String.intercalate (" ") ms)).map (fun s => [s])

/-- Embeds the action `polar_radius` (lines 238-247): passes `matches[0]`. -/
def polar_radius (env : WikiEnv) (ms : List String) : Except Exn (List String) :=
  match ms with
  | [] => Except.error Exn.indexError
  | m :: _ => (get_polar_radius env m).map (fun s => [s])

/-- Embeds `bye_action` (lines 251-252): raises `KeyboardInterrupt`. -/
def bye_action (dummy : List String) : Except Exn (List String) :=
  Except.error Exn.keyboardInterrupt

/-- Type alias `Pattern` of src/a10.py line 257. -/
abbrev Pattern := List String

/-- Type alias `Action` of src/a10.py line 258; a Python action may raise, so
its result is an `Except`. -/
abbrev Action := List String → Except Exn (List String)

/-- Embeds `pa_list` (lines 262-270) with each pattern string split on
whitespace; the external collaborators are threaded in via `env`. -/
def pa_list (env : WikiEnv) : List (Pattern × Action) :=
  [ (["when", "was", "%", "born"], birth_date env),
    (["what", "is", "the", "polar", "radius", "of", "%"], polar_radius env),
    (["what", "is", "the", "movement", "of", "%"], painter_movement env),
    (["what", "genre", "is", "%"], artist_genre env),
    (["what", "is", "the", "motto", "of", "%"], university_motto env),
    (["what", "is", "one", "work", "from", "%"], notable_work env),
    ([("bye")], bye_action) ]

/-- Embeds the loop body of `search_pa_list` (lines 285-291) with the registry
it iterates made explicit: try each `(pat, act)` in order; on the first
successful match call the action, replacing a falsy (empty) answer list by
`["No answers"]`; an exception raised by the action propagates (`Except.map`
passes errors through); if no pattern matches return `["I don't understand"]`. -/
def search_pa_list_from : List (Pattern × Action) → List String → Except Exn (List String)
  | [], _ => Except.ok ["I don't understand"]
  | (pat, act) :: rest, src =>
    match matchPat pat src with
    | some mat => (act mat).map (fun answer => if answer = [] then ["No answers"] else answer)
    | none => search_pa_list_from rest src

/-- Embeds `search_pa_list` (lines 273-291): the loop over the global
`pa_list`. -/
def search_pa_list (env : WikiEnv) (src : List String) : Except Exn (List String) :=
  search_pa_list_from (pa_list env) src

/-- Outcome of one iteration of `query_loop` for one tokenized query. -/
inductive TurnOutcome where
  | answered (answers : List String)
  | terminated
  | crashed (e : Exn)
deriving DecidableEq, Repr

/-- How `query_loop` (lines 294-309) treats the outcome of `search_pa_list`:
a normal return is printed (the loop continues with the next turn); the only
exceptions its `try/except` catches are `KeyboardInterrupt` and `EOFError`,
which break the loop gracefully; any other exception is uncaught, so it
escapes `query_loop` and aborts the whole conversation. -/
def turn_outcome : Except Exn (List String) → TurnOutcome
  | Except.ok answers => TurnOutcome.answered answers
  | Except.error Exn.keyboardInterrupt => TurnOutcome.terminated
  | Except.error Exn.eofError => TurnOutcome.terminated
  | Except.error e => TurnOutcome.crashed e

/-- One turn of `query_loop` (lines 298-307) on an already-tokenized query. -/
def query_turn (env : WikiEnv) (query : List String) : TurnOutcome :=
  turn_outcome (search_pa_list env query)

/-- Environment in which every page fetch fails with the `LookupError` of
`get_first_infobox_text` (line 37): no lookup ever succeeds. -/
def envTriv : WikiEnv :=
  ⟨fun _ => Except.error (Exn.lookupError ("Page has no infobox")),
   fun _ => none, fun _ => none, fun _ => none, fun _ => none, fun _ => none, fun _ => none⟩

/-- Environment for a page that exists but whose infobox lacks every fact:
the fetch succeeds, every regex search fails. -/
def envNoBirth : WikiEnv :=
  ⟨fun _ => Except.ok (""),
   fun _ => none, fun _ => none, fun _ => none, fun _ => none, fun _ => none, fun _ => none⟩

/-- Instrumented environment that reveals which name a handler looks up: the
infobox text of a title is the title itself and every regex search returns the
whole text, so each lookup answers with exactly the name it was asked about. -/
def envEcho : WikiEnv :=
  ⟨fun t => Except.ok t,
   fun t => some t, fun t => some t, fun t => some t, fun t => some t, fun t => some t,
   fun t => some t⟩


/-- Auxiliary: a successful match binds at least one captured word to every
wildcard of the pattern, so the capture is at least as long as the number of
wildcard markers. -/
lemma matchPat_wildcardCount_le :
    ∀ (src pat caps : List String), matchPat pat src = some caps →
      wildcardCount pat ≤ caps.length := by
  intro src
  induction src with
  | nil =>
    intro pat caps h
    cases pat with
    | nil =>
      simp only [matchPat, Option.some.injEq] at h
      subst h
      simp [wildcardCount]
    | cons p ps => simp [matchPat] at h
  | cons s ss ih =>
    intro pat caps h
    cases pat with
    | nil => simp [matchPat] at h
    | cons p ps =>
      by_cases hp : p = "%"
      · subst hp
        cases h1 : matchPat ps ss with
        | some c =>
          simp [matchPat, h1] at h
          subst h
          have := ih ps c h1
          simp [wildcardCount]
          omega
        | none =>
          cases h2 : matchPat ("%" :: ps) ss with
          | some c =>
            simp [matchPat, h1, h2] at h
            subst h
            have := ih ("%" :: ps) c h2
            simp [wildcardCount] at this ⊢
            omega
          | none =>
            simp [matchPat, h1, h2] at h
      · by_cases hs : p = s
        · simp only [matchPat, if_neg hp, if_pos hs] at h
          have := ih ps caps h
          simp only [wildcardCount, if_neg hp]
          omega
        · simp only [matchPat, if_neg hp, if_neg hs] at h
          cases h

/-- Claim C7: for every pattern with no wildcard token and every source, the
match succeeds exactly when pattern and source are equal element-wise, and on
success the capture is the empty list. -/
theorem matchPat_no_wildcard (P S : List String) (h : ("%" : String) ∉ P) :
    matchPat P S = if P = S then some [] else none := by
  induction P generalizing S with
  | nil => cases S <;> simp [matchPat]
  | cons p ps ih =>
    rw [List.mem_cons] at h
    push_neg at h
    have hp : p ≠ "%" := Ne.symm h.1
    cases S with
    | nil => simp [matchPat]
    | cons s ss =>
      by_cases hs : p = s
      · subst hs
        simp only [matchPat, if_neg hp, if_pos rfl, ih ss h.2, List.cons.injEq,
          true_and]
        simp
      · simp [matchPat, hp, hs]

/-- Witness for C7 at a concrete input: the wildcard-free pattern
`["when", "was"]` matches itself with an empty capture and does not match
`["when", "is"]`. -/
theorem matchPat_no_wildcard_wit :
    matchPat ["when", "was"] ["when", "was"] =
      (if (["when", "was"] : List String) = ["when", "was"] then some [] else none) ∧
    matchPat ["when", "was"] ["when", "is"] =
      (if (["when", "was"] : List String) = ["when", "is"] then some [] else none) :=
  ⟨matchPat_no_wildcard ["when", "was"] ["when", "was"] (by decide),
   matchPat_no_wildcard ["when", "was"] ["when", "is"] (by decide)⟩

/-- Claim C8: the matcher's wildcard tie-break is shortest-first.  For the
pattern `["%", "b"]` and the source `["b", "b"]` the capture is `["b"]`, the
first word, not `["b", "b"]`; and in general, whenever a span of a single word
lets the remainder of the pattern match, that minimal span is the one chosen. -/
theorem matchPat_shortest_first :
    matchPat ["%", "b"] ["b", "b"] = some ["b"] ∧
    ∀ (ps : List String) (s : String) (ss caps : List String),
      matchPat ps ss = some caps →
        matchPat (("%") :: ps) (s :: ss) = some (s :: caps) := by
  refine ⟨rfl, ?_⟩
  intro ps s ss caps h
  simp [matchPat, h]

/-- Claim C9: in every successful match each wildcard consumes at least one
source word, so the capture has at least as many words as the pattern has
wildcards; consequently matching fails whenever exactly one of pattern and
source is empty. -/
theorem matchPat_wildcard_consumes_one :
    (∀ (pat src caps : List String), matchPat pat src = some caps →
      wildcardCount pat ≤ caps.length) ∧
    (∀ (pat src : List String), (pat = [] ∧ src ≠ []) ∨ (pat ≠ [] ∧ src = []) →
      matchPat pat src = none) := by
  constructor
  · intro pat src caps h
    exact matchPat_wildcardCount_le src pat caps h
  · rintro pat src (⟨rfl, hs⟩ | ⟨hp, rfl⟩)
    · cases src with
      | nil => exact absurd rfl hs
      | cons a l => simp [matchPat]
    · cases pat with
      | nil => exact absurd rfl hp
      | cons a l => simp [matchPat]

/-- Auxiliary: registry entries whose patterns fail to match the source are
skipped, so dispatch over `pre ++ rest` equals dispatch over `rest` whenever
every pattern of `pre` fails. -/
lemma search_pa_list_from_skip (pre rest : List (Pattern × Action)) (src : List String)
    (hpre : ∀ e ∈ pre, matchPat e.1 src = none) :
    search_pa_list_from (pre ++ rest) src = search_pa_list_from rest src := by
  induction pre with
  | nil => rfl
  | cons e pre ih =>
    obtain ⟨pat, act⟩ := e
    have h1 : matchPat pat src = none := hpre _ (List.mem_cons_self _ _)
    rw [List.cons_append, search_pa_list_from, h1]
    exact ih (fun e he => hpre e (List.mem_cons_of_mem _ he))

/-- Claim C1: dispatch is first-match-wins in registry order.  If every entry
before `(pat, act)` fails to match the source and `pat` matches with capture
`mat`, then the dispatcher's result is exactly the invoked handler's result
(normalized for emptiness), whatever entries follow: no later handler is
invoked and iteration stops at the first successful match. -/
theorem search_pa_list_first_match (pre post : List (Pattern × Action))
    (pat : Pattern) (act : Action) (src mat : List String)
    (hpre : ∀ e ∈ pre, matchPat e.1 src = none)
    (hmat : matchPat pat src = some mat) :
    search_pa_list_from (pre ++ (pat, act) :: post) src =
      (act mat).map (fun answer => if answer = [] then ["No answers"] else answer) := by
  rw [search_pa_list_from_skip pre _ src hpre, search_pa_list_from, hmat]

/-- Witness for C1 at a concrete input: with two entries whose patterns both
match `["bye"]`, the first entry's handler decides the outcome. -/
theorem search_pa_list_first_match_wit :
    search_pa_list_from ([(["%"], fun m => Except.ok m)] ++ (["bye"], bye_action) :: []) ["a"] =
      ((fun m => Except.ok m : Action) ["a"]).map
        (fun answer => if answer = [] then ["No answers"] else answer) :=
  search_pa_list_first_match [] [(["bye"], bye_action)] ["%"] (fun m => Except.ok m)
    ["a"] ["a"] (fun e he => absurd he (List.not_mem_nil e)) rfl

/-- Claim C4: a source that matches no registered pattern yields exactly
`["I don't understand"]`, and no handler is invoked (the result holds for
every choice of handlers in the registry). -/
theorem search_pa_list_no_match (l : List (Pattern × Action)) (src : List String)
    (h : ∀ e ∈ l, matchPat e.1 src = none) :
    search_pa_list_from l src = Except.ok ["I don't understand"] := by
  rw [← List.append_nil l, search_pa_list_from_skip l [] src h]
  rfl

/-- Witness for C4 at a concrete input: the full registry of `a10.py` and the
source `["hello"]`, which no pattern matches. -/
theorem search_pa_list_no_match_wit :
    search_pa_list_from (pa_list envTriv) ["hello"] = Except.ok ["I don't understand"] :=
  search_pa_list_no_match (pa_list envTriv) ["hello"] (by decide)

/-- Claim C5: when the first matching entry's handler returns an empty answer
list, the dispatcher substitutes the single answer `["No answers"]`. -/
theorem search_pa_list_empty_answer (pre post : List (Pattern × Action))
    (pat : Pattern) (act : Action) (src mat : List String)
    (hpre : ∀ e ∈ pre, matchPat e.1 src = none)
    (hmat : matchPat pat src = some mat)
    (hempty : act mat = Except.ok []) :
    search_pa_list_from (pre ++ (pat, act) :: post) src = Except.ok ["No answers"] := by
  rw [search_pa_list_from_skip pre _ src hpre]
  simp [search_pa_list_from, hmat, hempty, Except.map]

/-- Witness for C5 at a concrete input: a handler that returns `ok []` on the
matching source `["hi"]`. -/
theorem search_pa_list_empty_answer_wit :
    search_pa_list_from ([] ++ (["hi"], fun _ => Except.ok []) :: []) ["hi"] =
      Except.ok ["No answers"] :=
  search_pa_list_empty_answer [] [] ["hi"] (fun _ => Except.ok []) ["hi"] []
    (fun e he => absurd he (List.not_mem_nil e)) rfl rfl

/-- Auxiliary: whatever the registry, a normal (non-raising) return of the
dispatch loop is a non-empty list: handlers' empty answers are replaced by
`["No answers"]` and the no-match case returns `["I don't understand"]`. -/
lemma search_pa_list_from_ok_ne_nil (l : List (Pattern × Action)) (src answers : List String)
    (h : search_pa_list_from l src = Except.ok answers) : answers ≠ [] := by
  induction l with
  | nil =>
    simp only [search_pa_list_from, Except.ok.injEq] at h
    subst h
    simp
  | cons e rest ih =>
    obtain ⟨pat, act⟩ := e
    cases hm : matchPat pat src with
    | none =>
      rw [search_pa_list_from, hm] at h
      exact ih h
    | some mat =>
      rw [search_pa_list_from] at h
      simp only [hm] at h
      cases ha : act mat with
      | error ex => rw [ha] at h; simp [Except.map] at h
      | ok a =>
        rw [ha] at h
        simp only [Except.map, Except.ok.injEq] at h
        subst h
        by_cases haa : a = []
        · simp [haa]
        · simp [haa]

/-- Claim C10: whenever `search_pa_list` returns normally (no exception
escapes a handler), the returned answer list is non-empty: a matched handler's
falsy (empty) result is replaced by `["No answers"]` and the no-match case
returns `["I don't understand"]`; the function never returns an empty list. -/
theorem search_pa_list_ok_nonempty (env : WikiEnv) (src answers : List String)
    (h : search_pa_list env src = Except.ok answers) : answers ≠ [] :=
  search_pa_list_from_ok_ne_nil (pa_list env) src answers h

/-- Witness for C10 at a concrete input: on the unmatched source `["hello"]`
the dispatcher returns `["I don't understand"]`, which is non-empty. -/
theorem search_pa_list_ok_nonempty_wit :
    search_pa_list envTriv ["hello"] = Except.ok ["I don't understand"] ∧
    (["I don't understand"] : List String) ≠ [] :=
  ⟨rfl, search_pa_list_ok_nonempty envTriv ["hello"] ["I don't understand"] rfl⟩

/-- Claim C2 fails on the code (code bug): when a fact lookup fails, the
`AttributeError` raised by `get_match` is caught neither by the handler nor by
`search_pa_list`, and `query_loop` catches only `KeyboardInterrupt` and
`EOFError`; so one failed lookup escapes past the dispatcher and aborts the
conversation instead of becoming an explanatory answer for that turn.  Here
the page for "ada" exists but its infobox has no birth date in the expected
format, and the turn crashes with the uncaught `AttributeError`. -/
theorem lookup_failure_crashes_loop :
    search_pa_list envNoBirth ["when", "was", "ada", "born"] =
      Except.error (Exn.attributeError err_birth) ∧
    query_turn envNoBirth ["when", "was", "ada", "born"] =
      TurnOutcome.crashed (Exn.attributeError err_birth) :=
  ⟨rfl, rfl⟩

/-- Claim C3 fails on the code (code bug): not every fact-lookup handler joins
the captured words before the lookup.  In `envEcho` each lookup answers with
exactly the name it was asked about, and on the capture
`["harvard", "university"]` the handlers `university_motto` and `polar_radius`
look up only `"harvard"` (Python `matches[0]`), while `birth_date` looks up
the space-joined `"harvard university"` as the spec requires of all of them. -/
theorem motto_truncates_capture :
    university_motto envEcho ["harvard", "university"] = Except.ok ["harvard"] ∧
    polar_radius envEcho ["harvard", "university"] = Except.ok ["harvard"] ∧
    birth_date envEcho ["harvard", "university"] = Except.ok ["harvard university"] :=
  ⟨rfl, rfl, rfl⟩

/-- Claim C6: with the registry `[(["bye"], bye_action)]`, the source
`["bye"]` makes the dispatcher propagate the termination control outcome
(`KeyboardInterrupt`, which `query_loop` turns into a graceful exit) and
produce no answers, while the source `["goodbye"]` matches nothing and yields
the single answer `["I don't understand"]`; the full registry of `a10.py`
behaves the same way on these sources. -/
theorem bye_terminates_goodbye_not_understood :
    search_pa_list_from [(["bye"], bye_action)] ["bye"] =
      Except.error Exn.keyboardInterrupt ∧
    turn_outcome (search_pa_list_from [(["bye"], bye_action)] ["bye"]) =
      TurnOutcome.terminated ∧
    search_pa_list_from [(["bye"], bye_action)] ["goodbye"] =
      Except.ok ["I don't understand"] ∧
    query_turn envTriv ["bye"] = TurnOutcome.terminated ∧
    query_turn envTriv ["goodbye"] = TurnOutcome.answered ["I don't understand"] :=
  ⟨rfl, rfl, rfl, rfl, rfl⟩

end WikiBot
